import Mathlib

/-!
Verification development for the sag language core: a shallow embedding of
the tree-walking evaluator (`src/evals/mod.rs`, `src/evals/function_node.rs`)
and of the parser fragments present in the repository
(`src/parsers/lambda_ast.rs`, `src/parsers/return_ast.rs`,
`src/parsers/continue_ast.rs`), together with theorems settling the frozen
claims about scope management, `Return` propagation, arity checking,
lambda capture, top-level sequencing and the parser's grammar.

Machine integers do not occur in the modelled code; sag numbers are exact
rationals (`fraction::Fraction`).  Every number a claim evaluates is an
integer and the only arithmetic run is `+` on integers, on which the
embedding into `Int` agrees with exact rational arithmetic (the inclusion
of the integers into the rationals is a ring embedding), so the number
payload is embedded as `Int`.  The `Rc<RefCell<Env>>`
environment handle threaded mutably through the Rust evaluator is embedded
by explicit state passing: every evaluation step takes an `Env` and returns
the updated `Env` next to its result.  Rust panics and the `RuntimeError`
results of the evaluator are both embedded as the `.error` case of `Except`.
Fuel (`Nat`) makes the generally-recursive interpreter total; every theorem
about a terminating run either fixes a concrete fuel or quantifies over it.

Diagnostic source positions (`line`, `column` on tokens and AST nodes) are
carried nowhere in the claims and are dropped from the embedding; errors
keep their `(message, line, column)` shape with the constant positions the
modelled code paths produce.
-/

/-- EnvVariableType from the environment model (`environment.rs` is not under
`src/`; the two mutabilities are fixed by spec section 3 and by the uses in
`src/evals/mod.rs` tests). -/
inductive EnvVariableType where
  | mutable
  | immutable
deriving DecidableEq, Repr

/-- ValueType, the declared-type annotations: plain types, `Any`, the lambda
marker type, and the three parametrised forms produced by
`parse_return_type` in `src/parsers/return_ast.rs` (`List<T>`, `Option<T>`,
`Result<T, E>`), plus a fallback constructor for user struct names. -/
inductive ValueType where
  | number
  | stringType
  | bool
  | void
  | any
  | lambda
  | list (element : ValueType)
  | optionType (some_ : ValueType)
  | resultType (success : ValueType) (failure : ValueType)
  | structType (name : String)
deriving DecidableEq, Repr

/-- TokenKind: the token kinds of `src/token.rs`, plus the `Option`,
`Result` and `List` kinds that `src/parsers/return_ast.rs` matches on
(the checked-in `token.rs` predates them). Positions are dropped. -/
inductive TokenKind where
  | immutable
  | mutable
  | colon
  | identifier (name : String)
  | stringTok (value : String)
  | number (value : Int)
  | voidTok
  | equal
  | plus
  | minus
  | mul
  | div
  | lparen
  | rparen
  | lbrace
  | rbrace
  | eof
  | functionTok
  | backslash
  | pipe
  | returnTok
  | comma
  | rarrow
  | matchTok
  | lbrancket
  | rbrancket
  | rrocket
  | ifTok
  | elseTok
  | eq
  | lte
  | lt
  | gte
  | gt
  | publicStruct
  | privateStruct
  | pub
  | dot
  | impl
  | commentBlock (text : String)
  | commentLine (text : String)
  | optionTok
  | resultTok
  | listTok
deriving DecidableEq, Repr

/-- RuntimeError of the evaluator (`src/evals/runtime_error.rs` is not under
`src/`; the `RuntimeError::new(message, line, column)` constructor shape is
fixed by its use at `src/evals/mod.rs:161`).  Rust panics inside the older
`src/evals/function_node.rs` are embedded as this same error shape, carrying
the panic message. -/
inductive RuntimeErr where
  | mk (message : String) (line : Nat) (column : Nat)
deriving DecidableEq, Repr

/-- ParseError of the parser (`src/parsers/parse_error.rs` is not under
`src/`); only its existence and message payload matter here. -/
inductive ParseErr where
  | mk (message : String)
deriving DecidableEq, Repr

/-- BuiltinTag: a symbolic stand-in for the native callables of the builtin
registry, which spec section 1 places out of scope ("the core only requires
a lookup returning a callable with fixed arity").  `argCount` is one
concrete native function used in theorems: it returns how many arguments it
received. -/
inductive BuiltinTag where
  | argCount
deriving DecidableEq, Repr

mutual

/-- ASTNode: the AST variants exercised by the claims, after
`src/evals/mod.rs` and the constructions in its tests.  Variants the claims
never touch (structs, impls, method calls, if, for, import, prefix ops,
comparisons) are omitted; `continueNode` is the `ASTNode::Continue` produced
by `src/parsers/continue_ast.rs`, for which the evaluator has no match arm.
Diagnostic positions are dropped. -/
inductive ASTNode where
  | literal (value : Value)
  | varNode (name : String) (value_type : Option ValueType)
  | binaryOp (left : ASTNode) (op : TokenKind) (right : ASTNode)
  | assign (name : String) (value : ASTNode) (variable_type : EnvVariableType)
      (value_type : ValueType) (is_new : Bool)
  | block (nodes : List ASTNode)
  | returnNode (expr : ASTNode)
  | functionNode (name : String) (arguments : List ASTNode) (body : ASTNode)
      (return_type : ValueType)
  | lambda (arguments : List ASTNode) (body : ASTNode)
  | functionCall (name : String) (arguments : ASTNode)
  | functionCallArgs (args : List ASTNode)
  | lambdaCall (lambda : ASTNode) (arguments : List ASTNode)
  | continueNode

/-- Value: the runtime values of spec section 3 used by the claims.
`returnValue` is the `Value::Return` control-flow sentinel; `lambdaValue`
carries the environment snapshot captured at creation
(`src/evals/mod.rs:87-91`).  Struct instances are omitted (no claim touches
them). -/
inductive Value where
  | number (value : Int)
  | stringValue (value : String)
  | bool (value : Bool)
  | list (values : List Value)
  | void
  | returnValue (value : Value)
  | functionMarker
  | lambdaValue (arguments : List ASTNode) (body : ASTNode) (env : Env)

/-- VariableSlot: one binding of the environment, per spec section 3
(`name -> VariableSlot {value, mutability, declared_type}`). -/
inductive VariableSlot where
  | mk (value : Value) (variable_type : EnvVariableType) (value_type : ValueType)

/-- FunctionInfo from the environment model: declared parameters, optional
body, return type and optional native callable, per the construction in
`src/evals/function_node.rs:9-14`. -/
inductive FunctionInfo where
  | mk (arguments : List ASTNode) (body : Option ASTNode)
      (return_type : ValueType) (builtin : Option BuiltinTag)

/-- Env: ordered stack of scope frames (innermost first, global last), a
function table and a builtin table, per spec section 3 (`environment.rs` is
not under `src/`).  A frame is its label paired with its bindings. -/
inductive Env where
  | mk (frames : List (String × List (String × VariableSlot)))
      (functions : List (String × FunctionInfo))
      (builtins : List (String × FunctionInfo))

end

/-- Accessor for the stored value of a binding. -/
def VariableSlot.value : VariableSlot → Value
  | .mk v _ _ => v

/-- Accessor for the mutability of a binding. -/
def VariableSlot.variable_type : VariableSlot → EnvVariableType
  | .mk _ t _ => t

/-- Accessor for the declared type of a binding. -/
def VariableSlot.value_type : VariableSlot → ValueType
  | .mk _ _ t => t

/-- Accessor for the declared parameters of a function entry. -/
def FunctionInfo.arguments : FunctionInfo → List ASTNode
  | .mk a _ _ _ => a

/-- Accessor for the stored body of a function entry. -/
def FunctionInfo.body : FunctionInfo → Option ASTNode
  | .mk _ b _ _ => b

/-- Accessor for the native callable of a function entry. -/
def FunctionInfo.builtin : FunctionInfo → Option BuiltinTag
  | .mk _ _ _ b => b

/-- Accessor for the scope-frame stack. -/
def Env.frames : Env → List (String × List (String × VariableSlot))
  | .mk f _ _ => f

/-- Accessor for the function table. -/
def Env.functions : Env → List (String × FunctionInfo)
  | .mk _ f _ => f

/-- Accessor for the builtin table. -/
def Env.builtins : Env → List (String × FunctionInfo)
  | .mk _ _ b => b

/-- Association-list lookup used for frames and the function tables. -/
def lookupA {α : Type} : List (String × α) → String → Option α
  | [], _ => none
  | (n, v) :: rest, name => if n = name then some v else lookupA rest name

/-- Modelled from the spec: the runtime type of a value, used by `get` when
an expected type is supplied ("a hit whose value's runtime type does not
match is treated as a miss", spec section 4.3); only the `Lambda` case is
exercised by `src/evals/function_node.rs:93`. -/
def valueTypeOf : Value → ValueType
  | .number _ => .number
  | .stringValue _ => .stringType
  | .bool _ => .bool
  | .list _ => .list .any
  | .void => .void
  | .returnValue _ => .any
  | .functionMarker => .any
  | .lambdaValue _ _ _ => .lambda

/-- Modelled from the spec: whether a stored value matches an expected
declared type; `Any` accepts everything (spec section 4.4 binds untyped
parameters at type `Any`). -/
def typeMatches (v : Value) (t : ValueType) : Bool :=
  t = .any || valueTypeOf v = t

/-- Modelled from the spec: `get` resolving frames innermost to global
(spec section 4.3); with an expected type, a hit of the wrong runtime type
is treated as a miss and the search continues outward. -/
def getFrames : List (String × List (String × VariableSlot)) → String →
    Option ValueType → Option VariableSlot
  | [], _, _ => none
  | f :: rest, name, expected =>
    match lookupA f.2 name with
    | some slot =>
      match expected with
      | none => some slot
      | some t =>
        if typeMatches slot.value t then some slot
        else getFrames rest name expected
    | none => getFrames rest name expected

/-- Modelled from the spec: `Env::get(name, expected_type)` of spec
section 4.3. -/
def Env.get (e : Env) (name : String) (expected : Option ValueType) :
    Option VariableSlot :=
  getFrames e.frames name expected

/-- Modelled from the spec: `enter_scope(label)` pushes a fresh empty frame
onto the stack (spec section 4.3). -/
def Env.enter_scope (e : Env) (label : String) : Env :=
  .mk ((label, []) :: e.frames) e.functions e.builtins

/-- Modelled from the spec: `leave_scope()` pops the innermost frame (spec
section 4.3); in the modelled code paths pushes and pops are balanced, so
the global frame is never dropped. -/
def Env.leave_scope (e : Env) : Env :=
  .mk e.frames.tail e.functions e.builtins

/-- Insert or shadow a binding inside one frame: an existing name is
overwritten in place, a new name is appended. -/
def insertVar : List (String × VariableSlot) → String → VariableSlot →
    List (String × VariableSlot)
  | [], name, slot => [(name, slot)]
  | (n, s) :: rest, name, slot =>
    if n = name then (n, slot) :: rest
    else (n, s) :: insertVar rest name slot

/-- Modelled from the spec: `set(name, value, mutability, declared_type,
is_new)` of spec section 4.3.  With `is_new = true` it always
creates/shadows in the innermost frame.  With `is_new = false` it requires
an existing binding (searched innermost to global), fails with the
"Cannot reassign to immutable variable" error of the repository's own test
(`src/evals/mod.rs:281`) when that binding is immutable, and otherwise
records the updated value in the innermost frame, from which
`update_global_env` later propagates it down ("propagate the (possibly
updated) value down into that pre-existing binding", spec section 4.3). -/
def Env.set (e : Env) (name : String) (value : Value)
    (variable_type : EnvVariableType) (value_type : ValueType)
    (is_new : Bool) : Except RuntimeErr Env :=
  if is_new then
    match e.frames with
    | [] => .error (.mk "no active scope" 0 0)
    | f :: rest =>
      .ok (.mk ((f.1, insertVar f.2 name (.mk value variable_type value_type)) :: rest)
        e.functions e.builtins)
  else
    match getFrames e.frames name none with
    | none => .error (.mk ("Undefined variable: " ++ name) 0 0)
    | some slot =>
      if slot.variable_type = .immutable then
        .error (.mk "Cannot reassign to immutable variable" 0 0)
      else
        match e.frames with
        | [] => .error (.mk "no active scope" 0 0)
        | f :: rest =>
          .ok (.mk ((f.1, insertVar f.2 name
              (.mk value slot.variable_type slot.value_type)) :: rest)
            e.functions e.builtins)

/-- Replace the stored value of a binding in one frame, keeping its
mutability and declared type; names other than the target are untouched. -/
def updateValue : List (String × VariableSlot) → String → Value →
    List (String × VariableSlot)
  | [], _, _ => []
  | (n, s) :: rest, name, value =>
    if n = name then (n, .mk value s.variable_type s.value_type) :: rest
    else (n, s) :: updateValue rest name value

/-- Propagate one value into the innermost frame of a stack that already
binds the name; a name bound nowhere leaves the stack unchanged. -/
def propagateVar : List (String × List (String × VariableSlot)) → String →
    Value → List (String × List (String × VariableSlot))
  | [], _, _ => []
  | f :: rest, name, value =>
    match lookupA f.2 name with
    | some _ => (f.1, updateValue f.2 name value) :: rest
    | none => f :: propagateVar rest name value

/-- Fold of `propagateVar` over the bindings of the popped frame. -/
def mergeBackVars (below : List (String × List (String × VariableSlot)))
    : List (String × VariableSlot) →
      List (String × List (String × VariableSlot))
  | [] => below
  | (n, s) :: rest => mergeBackVars (propagateVar below n s.value) rest

/-- Modelled from the spec: `update_global_env(child)` merge-back of spec
section 4.3 — every binding of the innermost (about-to-be-popped) frame
whose name also exists in a frame below has its value propagated down into
that pre-existing binding; names existing only in the popped frame are
dropped with it.  In `src/evals/function_node.rs:83` the child environment
is the same `Rc`-aliased environment, so the operation merges the
environment's own top frame into the frames below it. -/
def Env.update_global_env (e : Env) : Env :=
  match e.frames with
  | [] => e
  | top :: rest => .mk (top :: mergeBackVars rest top.2) e.functions e.builtins

/-- Register a function into the function table
(`src/evals/function_node.rs:15`). -/
def Env.register_function (e : Env) (name : String) (fi : FunctionInfo) : Env :=
  .mk e.frames ((name, fi) :: e.functions) e.builtins

/-- Lookup in the function table (spec section 4.3). -/
def Env.get_function (e : Env) (name : String) : Option FunctionInfo :=
  lookupA e.functions name

/-- Lookup in the builtin table (spec sections 4.3 and 6). -/
def Env.get_builtin (e : Env) (name : String) : Option FunctionInfo :=
  lookupA e.builtins name

/-- Modelled from the spec: the native callable behind a builtin lookup
(spec section 6, out-of-scope internals); `argCount` returns the number of
arguments it received, making argument-count handling observable. -/
def applyBuiltin : BuiltinTag → List Value → Value
  | .argCount, args => .number args.length

/-- Constructor name of an AST node, used by the catch-all error message of
`src/evals/mod.rs:161` (`"Unsupported ast node: {:?}"`). -/
def astNodeName : ASTNode → String
  | .literal _ => "Literal"
  | .varNode _ _ => "Variable"
  | .binaryOp _ _ _ => "BinaryOp"
  | .assign _ _ _ _ _ => "Assign"
  | .block _ => "Block"
  | .returnNode _ => "Return"
  | .functionNode _ _ _ _ => "Function"
  | .lambda _ _ => "Lambda"
  | .functionCall _ _ => "FunctionCall"
  | .functionCallArgs _ => "FunctionCallArgs"
  | .lambdaCall _ _ => "LambdaCall"
  | .continueNode => "Continue"

/-- Fuel-exhaustion error, an artifact of the embedding: the Rust evaluator
recurses without bound (spec section 5), the embedding consumes one unit of
fuel per evaluation step.  Every claim about a terminating run holds for
every sufficiently large fuel. -/
def fuelError : RuntimeErr := .mk "out of fuel" 0 0

/-- Extraction of `(name, value_type)` pairs from declared parameters, the
`params_vec` loop of `src/evals/function_node.rs:43-49` and `111-117`; a
parameter that is not a `Variable` node is the "illigal param" panic (sic). -/
def extractParams : List ASTNode → Except RuntimeErr (List (String × Option ValueType))
  | [] => .ok []
  | .varNode n vt :: rest =>
    match extractParams rest with
    | .ok ps => .ok ((n, vt) :: ps)
    | .error e => .error e
  | _ :: _ => .error (.mk "illigal param" 0 0)

mutual

/-- The evaluator `eval` of `src/evals/mod.rs:29-163`, restricted to the AST
variants the claims exercise.  Dispatch follows `mod.rs`; the
`Block`/`Function`/`FunctionCall` bodies follow `src/evals/function_node.rs`
(`block_node`, `function_node`, `function_call_node`).  The
`Assign`/`Variable`/`BinaryOp` arms are modelled from the spec (sections
4.3, 4.4 — their `src/evals/*.rs` files are not under `src/`), matching the
behavior asserted by the repository's own tests in `src/evals/mod.rs`.
Nodes with no arm (`Continue`, bare `FunctionCallArgs`) fall to the
catch-all of `src/evals/mod.rs:161`. -/
def eval : Nat → ASTNode → Env → Except RuntimeErr (Value × Env)
  | 0, _, _ => .error fuelError
  | n + 1, ast, env =>
    match ast with
    | .literal v => .ok (v, env)
    | .lambda args body => .ok (.lambdaValue args body env, env)
    | .varNode name vt =>
      match env.get name vt with
      | some slot => .ok (slot.value, env)
      | none => .error (.mk ("Undefined variable: " ++ name) 0 0)
    | .returnNode e1 =>
      match eval n e1 env with
      | .ok (v, env') => .ok (.returnValue v, env')
      | .error er => .error er
    | .block stmts => blockNode n stmts env
    | .assign name valAst variable_type value_type is_new =>
      match eval n valAst env with
      | .ok (v, env') =>
        match env'.set name v variable_type value_type is_new with
        | .ok env'' => .ok (v, env'')
        | .error er => .error er
      | .error er => .error er
    | .binaryOp l op r =>
      match eval n l env with
      | .ok (lv, env1) =>
        match eval n r env1 with
        | .ok (rv, env2) =>
          match op, lv, rv with
          | .plus, .number a, .number b => .ok (.number (a + b), env2)
          | .minus, .number a, .number b => .ok (.number (a - b), env2)
          | .mul, .number a, .number b => .ok (.number (a * b), env2)
          | _, _, _ => .error (.mk "Unsupported operation" 0 0)
        | .error er => .error er
      | .error er => .error er
    | .functionNode name args body return_type =>
      .ok (.functionMarker,
        env.register_function name (.mk args (some body) return_type none))
    | .functionCall name argsNode =>
      -- function_call_node, src/evals/function_node.rs:28-154.  The Rust
      -- `if get_function().is_some() || get_builtin().is_some()` guard with
      -- the inner re-lookup is flattened into the equivalent cascade: user
      -- function table first, then builtin table, then lambda-typed
      -- variable, else "Function is missing".
      match env.get_function name with
      | some fi => callFunction n name fi argsNode env
      | none =>
        match env.get_builtin name with
        | some fi => callFunction n name fi argsNode env
        | none =>
          match env.get name (some .lambda) with
          | some _ =>
            -- lambda branch, src/evals/function_node.rs:96-150: the second
            -- lookup runs without the type filter (line 98).
            match env.get name none with
            | some slot =>
              match slot.value with
              | .lambdaValue largs lbody _lenv =>
                -- the captured environment is bound (line 106) but never
                -- used below, faithfully to the source
                match extractParams largs with
                | .ok ps =>
                  match argsNode with
                  | .functionCallArgs argsL =>
                    if argsL.length ≠ largs.length then
                      .error (.mk "does not match arguments length" 0 0)
                    else
                      match bindParams n ps argsL (env.enter_scope name) with
                      | .ok env2 =>
                        match eval n lbody env2 with
                        | .ok (result, env3) =>
                          -- merge-back, pop; the raw result is passed
                          -- through with no Return unwrap (line 150)
                          .ok (result, env3.update_global_env.leave_scope)
                        | .error er => .error er
                      | .error er => .error er
                  | _ => .error (.mk "illigal arguments" 0 0)
                | .error er => .error er
              | _ => .error (.mk "Unexpected value type" 0 0)
            | none => .error (.mk "Unexpected value type" 0 0)
          | none => .error (.mk ("Function is missing: " ++ name) 0 0)
    | other => .error (.mk ("Unsupported ast node: " ++ astNodeName other) 0 0)
termination_by structural fuel _ _ => fuel

/-- The registered-function/builtin half of `function_call_node`
(`src/evals/function_node.rs:43-90`): extract parameters, extract the
argument list, dispatch a builtin directly on the evaluated arguments with
no arity check (lines 56-59), otherwise check arity (lines 61-63), push a
named scope, bind parameters as immutable slots, evaluate the body,
merge back, pop, and unwrap a `Return` sentinel (lines 86-90). -/
def callFunction : Nat → String → FunctionInfo → ASTNode → Env →
    Except RuntimeErr (Value × Env)
  | 0, _, _, _, _ => .error fuelError
  | n + 1, name, fi, argsNode, env =>
  match extractParams fi.arguments with
  | .ok ps =>
    match argsNode with
    | .functionCallArgs argsL =>
      match fi.builtin with
      | some tag =>
        match evalArgs n argsL env with
        | .ok (argVals, env') => .ok (applyBuiltin tag argVals, env')
        | .error er => .error er
      | none =>
        if argsL.length ≠ fi.arguments.length then
          .error (.mk "does not match arguments length" 0 0)
        else
          match bindParams n ps argsL (env.enter_scope name) with
          | .ok env2 =>
            match fi.body with
            | some body =>
              match eval n body env2 with
              | .ok (result, env3) =>
                match result with
                | .returnValue v => .ok (v, env3.update_global_env.leave_scope)
                | r => .ok (r, env3.update_global_env.leave_scope)
              | .error er => .error er
            | none => .error (.mk "Function body missing" 0 0)
          | .error er => .error er
    | _ => .error (.mk "illigal arguments" 0 0)
  | .error er => .error er
termination_by structural fuel _ _ _ _ => fuel

/-- `block_node` of `src/evals/function_node.rs:19-26`: statements run in
order; the first statement whose value is the `Return` sentinel stops the
block, whose own result is the unwrapped inner value (`return *v`, line
22); with no `Return`, the block yields `Void`. -/
def blockNode : Nat → List ASTNode → Env → Except RuntimeErr (Value × Env)
  | 0, _, _ => .error fuelError
  | _ + 1, [], env => .ok (.void, env)
  | n + 1, s :: rest, env =>
    match eval n s env with
    | .ok (v, env') =>
      match v with
      | .returnValue inner => .ok (inner, env')
      | _ => blockNode n rest env'
    | .error er => .error er
termination_by structural fuel _ _ => fuel

/-- The parameter-binding loop of `src/evals/function_node.rs:69-80`:
arguments are evaluated in the (already scope-pushed) environment and each
parameter is bound as a fresh immutable slot at its declared type, or `Any`
when absent; like the Rust `zip`, the loop stops at the shorter list. -/
def bindParams : Nat → List (String × Option ValueType) → List ASTNode →
    Env → Except RuntimeErr Env
  | 0, _, _, _ => .error fuelError
  | _ + 1, [], _, env => .ok env
  | _ + 1, _ :: _, [], env => .ok env
  | n + 1, (pn, pvt) :: ps, a :: rest, env =>
    match eval n a env with
    | .ok (v, env') =>
      match env'.set pn v .immutable (pvt.getD .any) true with
      | .ok env'' => bindParams n ps rest env''
      | .error er => .error er
    | .error er => .error er
termination_by structural fuel _ _ _ => fuel

/-- Left-to-right evaluation of builtin call arguments
(`src/evals/function_node.rs:57`). -/
def evalArgs : Nat → List ASTNode → Env → Except RuntimeErr (List Value × Env)
  | 0, _, _ => .error fuelError
  | _ + 1, [], env => .ok ([], env)
  | n + 1, a :: rest, env =>
    match eval n a env with
    | .ok (v, env') =>
      match evalArgs n rest env' with
      | .ok (vs, env'') => .ok (v :: vs, env'')
      | .error er => .error er
    | .error er => .error er
termination_by structural fuel _ _ => fuel

end

/-- Top-level statement sequencing `evals` of `src/evals/mod.rs:21-27`:
statements are evaluated in order; the `?` on `eval` makes the first
failure the whole result, discarding the vector of already-produced
values; with no failure all values are returned in order. -/
def evals (fuel : Nat) : List ASTNode → Env → Except RuntimeErr (List Value × Env)
  | [], env => .ok ([], env)
  | a :: rest, env =>
    match eval fuel a env with
    | .ok (v, env') =>
      match evals fuel rest env' with
      | .ok (vs, env'') => .ok (v :: vs, env'')
      | .error er => .error er
    | .error er => .error er

/-- Parser state: the token cursor (`tokens`, `pos`) together with the
transient parse-time scope bookkeeping of spec section 4.1 (`scopes` and the
variables provisionally registered into them), which `parse_lambda` in
`src/parsers/lambda_ast.rs` drives through `enter_scope` /
`register_variables` / `leave_scope`.  The `Parser` struct itself is not
under `src/`; this state is modelled from the spec and from the fields the
checked-in `impl Parser` blocks use.  Token positions are dropped, so a
token is just its kind. -/
structure Parser where
  tokens : List TokenKind
  pos : Nat
  scopes : List String
  registered : List (String × String × ValueType × EnvVariableType)

/-- Modelled from the spec: the `peek` half of the cursor interface of spec
section 6 (`get_current_token`). -/
def Parser.get_current_token (p : Parser) : Option TokenKind :=
  p.tokens[p.pos]?

/-- Modelled from the spec: the `advance` half of the cursor interface
(`consume_token`). -/
def Parser.consume_token (p : Parser) : Parser :=
  { p with pos := p.pos + 1 }

/-- Modelled from the spec: `extract_token(kind)` of the missing parser
core.  Spec section 4.1 enumerates the parse failures (`=>`, closing `|`,
matching parenthesis absent) yet its lambda grammar accepts a bare
untyped identifier parameter, whose parse runs `extract_token(Colon)` with
no colon present (`src/parsers/lambda_ast.rs:58`), and `parse_return_type`
(which cannot fail) runs `extract_token` on malformed generic syntax that
spec section 4.2 says falls back rather than failing; so a matching token
is consumed and a mismatch leaves the cursor unchanged. -/
def Parser.extract_token (p : Parser) (kind : TokenKind) : Parser :=
  match p.get_current_token with
  | some t => if t = kind then p.consume_token else p
  | none => p

/-- Modelled from the spec: pushing a transient parse-time scope (spec
section 4.1). -/
def Parser.enter_scope (p : Parser) (label : String) : Parser :=
  { p with scopes := label :: p.scopes }

/-- Modelled from the spec: discarding the transient parse-time scope. -/
def Parser.leave_scope (p : Parser) : Parser :=
  { p with scopes := p.scopes.tail }

/-- Modelled from the spec: provisional registration of a lambda parameter
into the parse-time scope, "purely so type annotations can be resolved"
(spec section 4.1). -/
def Parser.register_variables (p : Parser) (scope : String) (name : String)
    (vt : ValueType) (mt : EnvVariableType) : Parser :=
  { p with registered := (scope, name, vt, mt) :: p.registered }

/-- Modelled from the spec: `string_to_value_type` of the missing parser
core, mapping type-name identifiers to `ValueType`s; unknown names are kept
as struct-type names (spec section 3 lists the plain value types). -/
def string_to_value_type : String → ValueType
  | "number" => .number
  | "string" => .stringType
  | "bool" => .bool
  | "void" => .void
  | other => .structType other

/-- Fuel-exhaustion parse error, an artifact of the embedding: the pipe
parameter loop of `parse_lambda` can loop forever on a token that is
neither `|`, `,` nor an identifier, and expressions nest without bound. -/
def fuelParseError : ParseErr := .mk "out of fuel"

/-- Binding powers for infix operators, modelled from the spec's precedence
table (section 4.1): comparison < additive < multiplicative. -/
def binOpBp : TokenKind → Option Nat
  | .eq | .lt | .lte | .gt | .gte => some 5
  | .plus | .minus => some 10
  | .mul | .div => some 20
  | _ => none

mutual

/-- Modelled from the spec: the precedence-climbing expression parser of
spec section 4.1 (the expression-parser core is not under `src/`),
restricted to the primaries the claims exercise: literals, identifiers,
parenthesised expressions and `\`-introduced lambda literals
(`parse_lambda` is the checked-in source). -/
def parse_expression : Nat → Nat → Parser → Except ParseErr (ASTNode × Parser)
  | 0, _, _ => .error fuelParseError
  | n + 1, min_bp, p =>
    match parse_primary n p with
    | .ok (lhs, p1) => parseInfixLoop n min_bp lhs p1
    | .error e => .error e

/-- Modelled from the spec: primary terms of the expression grammar (spec
section 4.1). -/
def parse_primary : Nat → Parser → Except ParseErr (ASTNode × Parser)
  | 0, _ => .error fuelParseError
  | n + 1, p =>
    match p.get_current_token with
    | some (.number v) => .ok (.literal (.number v), p.consume_token)
    | some (.stringTok s) => .ok (.literal (.stringValue s), p.consume_token)
    | some (.identifier s) => .ok (.varNode s none, p.consume_token)
    | some .backslash => parse_lambda n p
    | some .lparen =>
      match parse_expression n 0 p.consume_token with
      | .ok (e, p1) => .ok (e, p1.extract_token .rparen)
      | .error e => .error e
    | _ => .error (.mk "unexpected token")

/-- Modelled from the spec: the climb loop — consume an infix operator
whose binding power is at least the minimum, recurse at the operator's
right binding power, stop otherwise (spec section 4.1). -/
def parseInfixLoop : Nat → Nat → ASTNode → Parser → Except ParseErr (ASTNode × Parser)
  | 0, _, _, _ => .error fuelParseError
  | n + 1, min_bp, lhs, p =>
    match p.get_current_token with
    | some k =>
      match binOpBp k with
      | some bp =>
        if min_bp ≤ bp then
          match parse_expression n (bp + 1) p.consume_token with
          | .ok (rhs, p1) => parseInfixLoop n min_bp (.binaryOp lhs k rhs) p1
          | .error e => .error e
        else .ok (lhs, p)
      | none => .ok (lhs, p)
    | none => .ok (lhs, p)

/-- `parse_lambda` of `src/parsers/lambda_ast.rs:8-103`: consume the `\`
introducer, enter the transient "lambda" scope, then dispatch on the next
token — a `|` opens the pipe-delimited typed parameter list, a bare
identifier is a single parameter (its `extract_token(Colon)` and optional
type-name peek run even with no annotation, and the following unconditional
`consume_token` runs either way), anything else yields no parameters. -/
def parse_lambda : Nat → Parser → Except ParseErr (ASTNode × Parser)
  | 0, _ => .error fuelParseError
  | n + 1, p0 =>
    let p := (p0.consume_token).enter_scope "lambda"
    match p.get_current_token with
    | some .pipe =>
      match parseLambdaParams n p.consume_token [] with
      | .ok (args, p1) => parseLambdaFinish n args p1
      | .error e => .error e
    | some (.identifier argument) =>
      let p1 := (p.consume_token).extract_token .colon
      let value_type :=
        match p1.get_current_token with
        | some (.identifier tn) => some (string_to_value_type tn)
        | _ => none
      parseLambdaFinish n [ASTNode.varNode argument value_type] p1.consume_token
    | _ => parseLambdaFinish n [] p

/-- The tail of `parse_lambda` (`src/parsers/lambda_ast.rs:76-102`):
`extract_token(RRocket)`, then a brace block or a single expression as the
body, then leave the transient scope. -/
def parseLambdaFinish : Nat → List ASTNode → Parser → Except ParseErr (ASTNode × Parser)
  | 0, _, _ => .error fuelParseError
  | n + 1, args, p0 =>
    let p := p0.extract_token .rrocket
    match p.get_current_token with
    | some .lbrace =>
      match parse_block n p with
      | .ok (stmt, p1) => .ok (.lambda args stmt, p1.leave_scope)
      | .error e => .error e
    | _ =>
      match parse_expression n 0 p with
      | .ok (stmt, p1) => .ok (.lambda args stmt, p1.leave_scope)
      | .error e => .error e

/-- The pipe parameter loop of `parse_lambda`
(`src/parsers/lambda_ast.rs:14-54`): a `|` closes the list, a `,` is
skipped, an identifier is a parameter whose `Colon` is extracted and whose
type-name `Option` is pushed cloned but then unwrapped for
`register_variables` (line 48) — a missing annotation is that `unwrap`
panic; any other token makes the Rust loop spin forever (nothing is
consumed), which the fuel makes total; exhausting the token stream leaves
the loop silently. -/
def parseLambdaParams : Nat → Parser → List ASTNode → Except ParseErr (List ASTNode × Parser)
  | 0, _, _ => .error fuelParseError
  | n + 1, p, acc =>
    match p.get_current_token with
    | none => .ok (acc, p)
    | some tok =>
      if tok = .pipe then .ok (acc, p.consume_token)
      else
        match tok with
        | .comma => parseLambdaParams n p.consume_token acc
        | .identifier argument =>
          let p1 := (p.consume_token).extract_token .colon
          let value_type :=
            match p1.get_current_token with
            | some (.identifier tn) => some (string_to_value_type tn)
            | _ => none
          match value_type with
          | some t =>
            let p2 := p1.register_variables "lambda" argument t .immutable
            parseLambdaParams n p2.consume_token (acc ++ [ASTNode.varNode argument (some t)])
          | none => .error (.mk "called Option::unwrap on a None value")
        | _ => parseLambdaParams n p acc

/-- Modelled from the spec: `parse_block` of the missing statement-parser
core — a `{ ... }` block is a sequence of statements closed by `}` (spec
section 4.2); the caller has already seen the `{`, which is consumed
here. -/
def parse_block : Nat → Parser → Except ParseErr (ASTNode × Parser)
  | 0, _ => .error fuelParseError
  | n + 1, p => parseBlockBody n p.consume_token []

/-- Modelled from the spec: the statement loop of `parse_block`; a missing
closing brace is a parse error (spec section 4.2). -/
def parseBlockBody : Nat → Parser → List ASTNode → Except ParseErr (ASTNode × Parser)
  | 0, _, _ => .error fuelParseError
  | n + 1, p, acc =>
    match p.get_current_token with
    | some .rbrace => .ok (.block acc, p.consume_token)
    | none => .error (.mk "missing closing brace")
    | some .eof => .error (.mk "missing closing brace")
    | some _ =>
      match parse_statement n p with
      | .ok (s, p1) => parseBlockBody n p1 (acc ++ [s])
      | .error e => .error e

/-- Modelled from the spec: statement dispatch of the missing statement
parser, restricted to what lambda bodies in the claims contain — `return`
statements (checked-in `parse_return`) and expressions. -/
def parse_statement : Nat → Parser → Except ParseErr (ASTNode × Parser)
  | 0, _ => .error fuelParseError
  | n + 1, p =>
    match p.get_current_token with
    | some .returnTok => parse_return n p
    | _ => parse_expression n 0 p

/-- `parse_return` of `src/parsers/return_ast.rs:9-14`: advance past the
`return` keyword, parse the value expression, wrap it in a `Return` node. -/
def parse_return : Nat → Parser → Except ParseErr (ASTNode × Parser)
  | 0, _ => .error fuelParseError
  | n + 1, p =>
    match parse_expression n 0 p.consume_token with
    | .ok (v, p1) => .ok (.returnNode v, p1)
    | .error e => .error e

end

/-- `parse_return_type` of `src/parsers/return_ast.rs:16-78`: with no
leading `Colon` the result is `Void`; after the colon a plain identifier
maps through `string_to_value_type`; the `Option`/`Result`/`List` kinds
parse their angle-bracketed parameters, each missing inner type name
defaulting to `Void` as the parameter; any other token falls through to
`Void`.  The function returns a `ValueType` (not a `Result`) and cannot
fail.  The Rust `if let` cascade over the same current token is the
single match here; the `Result` branch ends with a bare `consume_token`
(line 57) where the other generic branches extract `Gt`. -/
def parse_return_type (p : Parser) : ValueType × Parser :=
  match p.get_current_token with
  | some .colon =>
    let p1 := p.consume_token
    match p1.get_current_token with
    | some (.identifier tn) => (string_to_value_type tn, p1.consume_token)
    | some .optionTok =>
      let p2 := (p1.consume_token).extract_token .lt
      let sp :=
        match p2.get_current_token with
        | some (.identifier tn) => (string_to_value_type tn, p2.consume_token)
        | _ => (ValueType.void, p2)
      (ValueType.optionType sp.1, sp.2.extract_token .gt)
    | some .resultTok =>
      let p2 := (p1.consume_token).extract_token .lt
      let sp :=
        match p2.get_current_token with
        | some (.identifier tn) => (string_to_value_type tn, p2.consume_token)
        | _ => (ValueType.void, p2)
      let p3 := sp.2.extract_token .comma
      let fp :=
        match p3.get_current_token with
        | some (.identifier tn) => (string_to_value_type tn, p3.consume_token)
        | _ => (ValueType.void, p3)
      (ValueType.resultType sp.1 fp.1, fp.2.consume_token)
    | some .listTok =>
      let p2 := (p1.consume_token).extract_token .lt
      let ep :=
        match p2.get_current_token with
        | some (.identifier tn) => (string_to_value_type tn, p2.consume_token)
        | _ => (ValueType.void, p2)
      (ValueType.list ep.1, ep.2.extract_token .gt)
    | _ => (ValueType.void, p1)
  | _ => (ValueType.void, p)

/-- `parse_continue` of `src/parsers/continue_ast.rs:6-11`: advance past
the keyword and produce an `ASTNode::Continue`; it cannot fail. -/
def parse_continue (p : Parser) : Except ParseErr (ASTNode × Parser) :=
  .ok (.continueNode, p.consume_token)

/-- The names bound by one frame, in order. -/
def frameKeys (f : String × List (String × VariableSlot)) : List String :=
  f.2.map Prod.fst

/-- The name-domains of all frames of an environment, innermost first. -/
def envKeys (e : Env) : List (List String) :=
  e.frames.map frameKeys

/-- One evaluation step's effect on the scope shape: the frame count is
unchanged, every frame but the innermost keeps exactly its name-domain, and
the innermost frame's name-domain can only grow (declarations land there). -/
def ShapeStep (a b : Env) : Prop :=
  (envKeys b).length = (envKeys a).length ∧
  (envKeys b).tail = (envKeys a).tail ∧
  ∀ x, x ∈ (envKeys a).headD [] → x ∈ (envKeys b).headD []

/-- An environment with one empty global frame and no registered
functions. -/
def envG : Env := .mk [("global", [])] [] []

/-- The registered `f1(x, y)` of the leak-back scenario (spec section 8,
mirrored by the repository test `test_scope_and_global_variable` in
`src/evals/mod.rs:485-638`): reassign outer `z = 2`, declare local
`d = 3`, reassign `z = (d = 4)`, return `x + y + z`. -/
def c1Fi : FunctionInfo :=
  .mk [.varNode "x" (some .number), .varNode "y" (some .number)]
    (some (.block [
      .assign "z" (.literal (.number 2)) .mutable .number false,
      .assign "d" (.literal (.number 3)) .mutable .number true,
      .assign "z" (.assign "d" (.literal (.number 4)) .mutable .number false)
        .mutable .number false,
      .returnNode (.binaryOp
        (.binaryOp (.varNode "x" (some .number)) .plus (.varNode "y" (some .number)))
        .plus (.varNode "z" (some .number)))]))
    .number none

/-- Leak-back scenario start: global mutable `z = 3` and `f1` registered. -/
def c1Env : Env :=
  .mk [("global", [("z", .mk (.number 3) .mutable .number)])] [("f1", c1Fi)] []

/-- The call `f1(2, 0)`. -/
def c1Call : ASTNode :=
  .functionCall "f1" (.functionCallArgs [.literal (.number 2), .literal (.number 0)])

/-- Leak-back scenario end: global `z` updated to `4`, `d` dropped, `f1`
still registered. -/
def c1EnvAfter : Env :=
  .mk [("global", [("z", .mk (.number 4) .mutable .number)])] [("f1", c1Fi)] []

/-- A block whose first statement produces the `Return` sentinel and whose
second statement would produce `2`. -/
def c2Block : ASTNode :=
  .block [.returnNode (.literal (.number 1)), .literal (.number 2)]

/-- The creation-time environment snapshot of the C3 lambda: global mutable
`a = 1`. -/
def c3Snap : Env :=
  .mk [("global", [("a", .mk (.number 1) .mutable .number)])] [] []

/-- The C3 lambda's body: read `a`. -/
def c3Body : ASTNode := .varNode "a" none

/-- The call-site environment of the C3 scenario, parameterised by the
snapshot stored inside the lambda value: after the capture, the defining
scope's `a` was mutated to `2`, and `l` is bound to the zero-parameter
lambda that returns `a`. -/
def c3LiveEnv (snap : Env) : Env :=
  .mk [("global",
      [("a", .mk (.number 2) .mutable .number),
       ("l", .mk (.lambdaValue [] c3Body snap) .immutable .lambda)])] [] []

/-- The call of `l` through its lambda-typed variable. -/
def c3Call : ASTNode := .functionCall "l" (.functionCallArgs [])

/-- A registered zero-parameter function whose body is a bare
`return 1`. -/
def c4Fi : FunctionInfo :=
  .mk [] (some (.returnNode (.literal (.number 1)))) .number none

/-- Environment with `f` registered as that function. -/
def c4EnvFn : Env := .mk [("global", [])] [("f", c4Fi)] []

/-- Environment with `l` bound to a zero-parameter lambda whose body is the
same bare `return 1`. -/
def c4EnvLam : Env :=
  .mk [("global",
      [("l", .mk (.lambdaValue [] (.returnNode (.literal (.number 1))) envG)
          .immutable .lambda)])] [] []

/-- A zero-parameter entry of the builtin table whose native callable is
`argCount`. -/
def c6Bi : FunctionInfo := .mk [] none .any (some .argCount)

/-- Environment with the builtin `b` registered. -/
def c6Env : Env := .mk [("global", [])] [] [("b", c6Bi)]

/-- A one-parameter user function used to witness the arity error:
`g(x) { 0 }`. -/
def c6Fi : FunctionInfo :=
  .mk [.varNode "x" none] (some (.literal (.number 0))) .number none

/-- Environment with `g` registered. -/
def c6EnvFn : Env := .mk [("global", [])] [("g", c6Fi)] []

/-- A user function whose body declares a brand-new local `loc`. -/
def c5Fi : FunctionInfo :=
  .mk [] (some (.assign "loc" (.literal (.number 1)) .mutable .number true))
    .void none

/-- Environment with that function registered and an empty global frame. -/
def c5Env : Env := .mk [("global", [])] [("f", c5Fi)] []

/-- Top-level statement list whose second statement fails: `1` then an
undefined variable. -/
def c7Stmts : List ASTNode := [.literal (.number 1), .varNode "nope" none]

/-- A fresh parser over a token list. -/
def mkParser (ts : List TokenKind) : Parser := ⟨ts, 0, [], []⟩

/-- Tokens of `\x => 1`: a single bare identifier parameter with no colon
and no type annotation. -/
def c8BareTokens : List TokenKind :=
  [.backslash, .identifier "x", .rrocket, .number 1, .eof]

/-- Tokens of `\|x: number, y: number| => x`. -/
def c8PipeTokens : List TokenKind :=
  [.backslash, .pipe, .identifier "x", .colon, .identifier "number", .comma,
   .identifier "y", .colon, .identifier "number", .pipe, .rrocket,
   .identifier "x", .eof]

/-- Tokens of `\x: number => { return x }`: annotated bare parameter and a
brace-block body. -/
def c8BlockTokens : List TokenKind :=
  [.backslash, .identifier "x", .colon, .identifier "number", .rrocket,
   .lbrace, .returnTok, .identifier "x", .rbrace, .eof]

/-- Tokens of the malformed generic return type `: Option<>`. -/
def c9MalformedTokens : List TokenKind := [.colon, .optionTok, .lt, .gt, .eof]

/-- C1: starting from a global mutable binding `z = 3` and the registered
function `f1(x, y)` that reassigns the existing outer `z` to `2`, declares
a brand-new local `d = 3`, reassigns `z` to the value of the nested
reassignment `d = 4` and returns `x + y + z`, the call `f1(2, 0)` evaluates
to `Number 6`; afterwards the global binding `z` holds `4` and looking up
`"d"` yields `None`. -/
theorem c1_leak_back_scenario :
    eval 20 c1Call c1Env = .ok (.number 6, c1EnvAfter) ∧
    (c1EnvAfter.get "z" none).map VariableSlot.value = some (.number 4) ∧
    c1EnvAfter.get "d" none = none :=
  ⟨rfl, rfl, rfl⟩

/-- C2 counterexample: the block `{ return 1; 2 }` evaluates to the
unwrapped `Number 1`, not to the still-wrapped sentinel `Return(Number 1)`
the claim asserts (`block_node` executes `return *v`,
`src/evals/function_node.rs:22`). -/
theorem c2_counterexample_block_returns_unwrapped :
    eval 10 c2Block envG = .ok (.number 1, envG) ∧
    (Except.ok (Value.number 1, envG) : Except RuntimeErr (Value × Env)) ≠
      .ok (.returnValue (.number 1), envG) :=
  ⟨rfl, by simp⟩

/-- C2 amended: block evaluation stops at the first statement that
produces the `Return` sentinel, but the block's own result is the
*unwrapped* inner value, not the wrapped sentinel; a block none of whose
statements produces `Return` evaluates to `Void`. -/
theorem c2_block_stops_and_unwraps :
    (∀ (fuel : Nat) (s : ASTNode) (rest : List ASTNode) (env env' : Env) (v : Value),
      eval fuel s env = .ok (.returnValue v, env') →
      eval (fuel + 1 + 1) (.block (s :: rest)) env = .ok (v, env')) ∧
    (∀ (fuel : Nat) (env : Env),
      eval (fuel + 1 + 1) (.block []) env = .ok (.void, env)) ∧
    eval 10 (.block [.literal (.number 2)]) envG = .ok (.void, envG) := by
  refine ⟨?_, ?_, rfl⟩
  · intro fuel s rest env env' v h
    show ((match eval fuel s env with
      | .ok (w, envA) =>
        match w with
        | .returnValue inner => .ok (inner, envA)
        | _ => blockNode fuel rest envA
      | .error er => .error er : Except RuntimeErr (Value × Env))) = .ok (v, env')
    rw [h]
  · intro fuel env
    rfl

/-- C2 witness: the general unwrap statement applied to the concrete first
statement `return 1`. -/
theorem c2_block_stops_and_unwraps_witness :
    eval 2 (.returnNode (.literal (.number 1))) envG
      = .ok (.returnValue (.number 1), envG) ∧
    eval 4 (.block [.returnNode (.literal (.number 1)), .literal (.number 2)]) envG
      = .ok (.number 1, envG) :=
  ⟨rfl, c2_block_stops_and_unwraps.1 2 (.returnNode (.literal (.number 1)))
    [.literal (.number 2)] envG envG (.number 1) rfl⟩

/-- C3 counterexample: `l` is bound to a lambda that captured a snapshot in
which `a = 1`; the defining scope's `a` was then mutated to `2` before the
call; calling `l()` through the lambda-typed variable returns `Number 2`
(the call-site environment's value), not the `Number 1` the captured
snapshot holds — the destructured captured environment is never used
(`src/evals/function_node.rs:106`, `128`). -/
theorem c3_counterexample_call_site_observed :
    eval 10 c3Call (c3LiveEnv c3Snap) = .ok (.number 2, c3LiveEnv c3Snap) ∧
    (Except.ok (Value.number 2, c3LiveEnv c3Snap) : Except RuntimeErr (Value × Env)) ≠
      .ok (.number 1, c3LiveEnv c3Snap) :=
  ⟨rfl, by simp⟩

/-- C3 amended: a lambda value does store the creation-time environment
snapshot (`src/evals/mod.rs:87-91`), but a call through a lambda-typed
variable evaluates the body against the call-site environment with a new
scope pushed on it; the stored snapshot is irrelevant to the call's result
(the scenario result is the same for every snapshot), so mutations made in
the defining scope between creation and call are observed. -/
theorem c3_lambda_call_uses_call_site_env :
    (∀ (fuel : Nat) (args : List ASTNode) (body : ASTNode) (env : Env),
      eval (fuel + 1) (.lambda args body) env = .ok (.lambdaValue args body env, env)) ∧
    (∀ snap : Env, eval 10 c3Call (c3LiveEnv snap) = .ok (.number 2, c3LiveEnv snap)) :=
  ⟨fun _ _ _ _ => rfl, fun _ => rfl⟩

/-- C4 counterexample: `l` is bound to a lambda whose body is the bare
statement `return 1`; calling `l()` through the lambda-typed variable
yields the still-wrapped sentinel `Return(Number 1)` as the call's final
result — the lambda branch of `function_call_node` passes the raw result
through with no unwrap (`src/evals/function_node.rs:150`). -/
theorem c4_counterexample_lambda_return_observable :
    eval 10 (.functionCall "l" (.functionCallArgs [])) c4EnvLam
      = .ok (.returnValue (.number 1), c4EnvLam) ∧
    (Except.ok (Value.returnValue (.number 1), c4EnvLam) : Except RuntimeErr (Value × Env)) ≠
      .ok (.number 1, c4EnvLam) :=
  ⟨rfl, by simp⟩

/-- C4 amended: a registered-function call site unwraps the `Return`
sentinel (`src/evals/function_node.rs:86-90`): calling `f`, whose body is
the bare `return 1`, yields the unwrapped `Number 1`; but the
lambda-through-variable call path returns the raw body result without
unwrapping, so the same body called as a lambda yields the observable
sentinel `Return(Number 1)`. -/
theorem c4_only_function_calls_unwrap :
    eval 10 (.functionCall "f" (.functionCallArgs [])) c4EnvFn
      = .ok (.number 1, c4EnvFn) ∧
    eval 10 (.functionCall "l" (.functionCallArgs [])) c4EnvLam
      = .ok (.returnValue (.number 1), c4EnvLam) :=
  ⟨rfl, rfl⟩

/-- C6 counterexample: the builtin `b` is registered with zero declared
parameters, yet calling it with two arguments does not fail with the arity
error — the builtin branch returns before the arity check
(`src/evals/function_node.rs:56-63`), and the native callable simply
receives both arguments (here counting them to `Number 2`). -/
theorem c6_counterexample_builtin_skips_arity :
    eval 10 (.functionCall "b"
        (.functionCallArgs [.literal (.number 5), .literal (.number 7)])) c6Env
      = .ok (.number 2, c6Env) ∧
    (2 : Nat) ≠ c6Bi.arguments.length :=
  ⟨rfl, by decide⟩

/-- C7 counterexample: for the statement list `[1, nope]`, whose second
statement fails on the undefined variable, `evals` returns only the
failure; the `Number 1` successfully produced before it is discarded
(`values` is dropped by the `?` in `src/evals/mod.rs:24`), so the result
does not contain every successfully produced value. -/
theorem c7_counterexample_values_discarded :
    evals 5 c7Stmts envG = .error (.mk "Undefined variable: nope" 0 0) :=
  rfl

/-- C7 amended: `evals` evaluates statements in order and stops at the
first failure, returning that failure *alone* (values produced before it
are discarded); if no statement fails it returns all values in order. -/
theorem c7_stops_at_first_failure :
    (∀ (fuel : Nat) (s : ASTNode) (rest : List ASTNode) (env : Env) (e : RuntimeErr),
      eval fuel s env = .error e → evals fuel (s :: rest) env = .error e) ∧
    (∀ (fuel : Nat) (s : ASTNode) (rest : List ASTNode) (env env' env'' : Env)
        (v : Value) (vs : List Value),
      eval fuel s env = .ok (v, env') → evals fuel rest env' = .ok (vs, env'') →
      evals fuel (s :: rest) env = .ok (v :: vs, env'')) ∧
    evals 5 [.literal (.number 1), .literal (.number 2)] envG
      = .ok ([.number 1, .number 2], envG) := by
  refine ⟨?_, ?_, rfl⟩
  · intro fuel s rest env e h
    show ((match eval fuel s env with
      | .ok (v, env') =>
        match evals fuel rest env' with
        | .ok (vs, env'') => .ok (v :: vs, env'')
        | .error er => .error er
      | .error er => .error er : Except RuntimeErr (List Value × Env))) = .error e
    rw [h]
  · intro fuel s rest env env' env'' v vs h1 h2
    show ((match eval fuel s env with
      | .ok (v0, envA) =>
        match evals fuel rest envA with
        | .ok (vs0, envB) => .ok (v0 :: vs0, envB)
        | .error er => .error er
      | .error er => .error er : Except RuntimeErr (List Value × Env))) = .ok (v :: vs, env'')
    rw [h1]
    show ((match evals fuel rest env' with
      | .ok (vs0, envB) => .ok (v :: vs0, envB)
      | .error er => .error er : Except RuntimeErr (List Value × Env))) = .ok (v :: vs, env'')
    rw [h2]

/-- C7 witness: the failure-propagation statement applied to the concrete
failing first statement. -/
theorem c7_stops_at_first_failure_witness :
    eval 1 (.varNode "nope" none) envG = .error (.mk "Undefined variable: nope" 0 0) ∧
    evals 1 [.varNode "nope" none, .literal (.number 9)] envG
      = .error (.mk "Undefined variable: nope" 0 0) :=
  ⟨rfl, c7_stops_at_first_failure.1 1 (.varNode "nope" none) [.literal (.number 9)]
    envG (.mk "Undefined variable: nope" 0 0) rfl⟩

/-- C8: the lambda literal grammar accepts, after the `\` introducer,
either a bare identifier parameter with no colon and no type annotation
(`\x => 1` parses to a one-parameter untyped lambda), or a pipe-delimited
typed list (`\|x: number, y: number| => x`), followed by `=>` and then
either a single expression or a brace block (`\x: number => { return x }`). -/
theorem c8_lambda_grammar :
    (parse_lambda 20 (mkParser c8BareTokens)).map Prod.fst
      = .ok (.lambda [.varNode "x" none] (.literal (.number 1))) ∧
    (parse_lambda 30 (mkParser c8PipeTokens)).map Prod.fst
      = .ok (.lambda [.varNode "x" (some .number), .varNode "y" (some .number)]
          (.varNode "x" none)) ∧
    (parse_lambda 30 (mkParser c8BlockTokens)).map Prod.fst
      = .ok (.lambda [.varNode "x" (some .number)]
          (.block [.returnNode (.varNode "x" none)])) :=
  ⟨rfl, rfl, rfl⟩

/-- C9 counterexample: the malformed generic return type `: Option<>`
does not fall back to the `Void` type — `parse_return_type` produces
`OptionType(Void)` (the missing inner type name defaults to `Void` as the
*type parameter*, `src/parsers/return_ast.rs:25-34`), which is a different
`ValueType` node than the claimed `Void` fallback. -/
theorem c9_counterexample_malformed_generic :
    (parse_return_type (mkParser c9MalformedTokens)).1 = ValueType.optionType .void ∧
    ValueType.optionType .void ≠ ValueType.void :=
  ⟨rfl, by decide⟩

/-- C9 amended: return-type parsing accepts plain identifier types and the
three parametrised forms `Option<T>`, `Result<T, E>`, `List<T>`, producing
the corresponding `ValueType` node for each, and `void` through the
fallback; no input makes it fail with a parse error (it does not return a
`Result` at all), but malformed generic syntax inside a recognised
parametrised form defaults the missing *type parameter* to `Void` (for
example `Option<>` and a bare `Option` both give `OptionType(Void)`), while
the plain `Void` fallback applies only when no colon follows or the token
after the colon is not an identifier or generic keyword. -/
theorem c9_return_type_grammar :
    (parse_return_type (mkParser [.colon, .identifier "number", .eof])).1
      = ValueType.number ∧
    (parse_return_type (mkParser [.colon, .optionTok, .lt, .identifier "number", .gt, .eof])).1
      = ValueType.optionType .number ∧
    (parse_return_type (mkParser [.colon, .resultTok, .lt, .identifier "number",
        .comma, .identifier "string", .gt, .eof])).1
      = ValueType.resultType .number .stringType ∧
    (parse_return_type (mkParser [.colon, .listTok, .lt, .identifier "number", .gt, .eof])).1
      = ValueType.list .number ∧
    (parse_return_type (mkParser [.colon, .voidTok, .eof])).1 = ValueType.void ∧
    (parse_return_type (mkParser [.eof])).1 = ValueType.void ∧
    (parse_return_type (mkParser c9MalformedTokens)).1 = ValueType.optionType .void ∧
    (parse_return_type (mkParser [.colon, .optionTok, .eof])).1
      = ValueType.optionType .void :=
  ⟨rfl, rfl, rfl, rfl, rfl, rfl, rfl, rfl⟩

/-- C10: `parse_continue` accepts the `continue` statement, producing an
`ASTNode::Continue` and advancing the cursor; the evaluator has no match
arm for that variant, so for every environment (and any fuel allowing one
step) evaluating it fails with the catch-all Unsupported runtime error of
`src/evals/mod.rs:161` instead of performing loop control flow. -/
theorem c10_continue_unsupported :
    (∀ p : Parser, parse_continue p = .ok (.continueNode, p.consume_token)) ∧
    (∀ (fuel : Nat) (env : Env),
      eval (fuel + 1) .continueNode env
        = .error (.mk "Unsupported ast node: Continue" 0 0)) :=
  ⟨fun _ => rfl, fun _ _ => rfl⟩

/-- Reflexivity of the shape step relation. -/
theorem shapeStep_refl (a : Env) : ShapeStep a a :=
  ⟨rfl, rfl, fun _ h => h⟩

/-- Transitivity of the shape step relation. -/
theorem shapeStep_trans {a b c : Env} (h1 : ShapeStep a b) (h2 : ShapeStep b c) :
    ShapeStep a c :=
  ⟨h2.1.trans h1.1, h2.2.1.trans h1.2.1, fun x hx => h2.2.2 x (h1.2.2 x hx)⟩

/-- Equal key structure gives a shape step. -/
theorem shapeStep_of_envKeys_eq {a b : Env} (h : envKeys b = envKeys a) :
    ShapeStep a b :=
  ⟨by rw [h], by rw [h], fun x hx => by rw [h]; exact hx⟩

/-- `insertVar` can only grow the set of names of a frame. -/
theorem insertVar_keys_mem (l : List (String × VariableSlot)) (name : String)
    (slot : VariableSlot) (x : String) (hx : x ∈ l.map Prod.fst) :
    x ∈ (insertVar l name slot).map Prod.fst := by
  induction l with
  | nil => simp at hx
  | cons p rest ih =>
    obtain ⟨n, s⟩ := p
    simp only [insertVar]
    split
    · simpa using hx
    · simp only [List.map_cons, List.mem_cons] at hx ⊢
      rcases hx with h | h
      · exact Or.inl h
      · exact Or.inr (ih h)

/-- A successful `set` is a shape step: both the declaring and the
reassigning case write through `insertVar` on the innermost frame. -/
theorem set_shape {e : Env} {name : String} {v : Value} {mt : EnvVariableType}
    {vt : ValueType} {b : Bool} {e' : Env}
    (h : Env.set e name v mt vt b = .ok e') : ShapeStep e e' := by
  obtain ⟨frames, fns, bis⟩ := e
  unfold Env.set at h
  cases b with
  | true =>
    simp only [Env.frames, Env.functions, Env.builtins, if_true] at h
    cases frames with
    | nil => exact Except.noConfusion h
    | cons f rest =>
      obtain ⟨fl, fv⟩ := f
      simp only [] at h
      injection h with h2
      subst h2
      refine ⟨rfl, rfl, ?_⟩
      intro x hx
      simpa [envKeys, frameKeys, Env.frames] using
        insertVar_keys_mem fv name (.mk v mt vt) x
          (by simpa [envKeys, frameKeys, Env.frames] using hx)
  | false =>
    simp only [Env.frames, Env.functions, Env.builtins, Bool.false_eq_true, if_false] at h
    cases hg : getFrames frames name none with
    | none => rw [hg] at h; exact Except.noConfusion h
    | some slot =>
      rw [hg] at h
      simp only [] at h
      split at h
      · exact Except.noConfusion h
      · cases frames with
        | nil => exact Except.noConfusion h
        | cons f rest =>
          obtain ⟨fl, fv⟩ := f
          simp only [] at h
          injection h with h2
          subst h2
          refine ⟨rfl, rfl, ?_⟩
          intro x hx
          simpa [envKeys, frameKeys, Env.frames] using
            insertVar_keys_mem fv name (.mk v slot.variable_type slot.value_type) x
              (by simpa [envKeys, frameKeys, Env.frames] using hx)

/-- `updateValue` keeps a frame's names exactly. -/
theorem updateValue_keys (l : List (String × VariableSlot)) (name : String)
    (v : Value) : (updateValue l name v).map Prod.fst = l.map Prod.fst := by
  induction l with
  | nil => rfl
  | cons p rest ih =>
    obtain ⟨n, s⟩ := p
    simp only [updateValue]
    split <;> simp [ih]

/-- `propagateVar` keeps every frame's names exactly. -/
theorem propagateVar_keys (fs : List (String × List (String × VariableSlot)))
    (name : String) (v : Value) :
    (propagateVar fs name v).map frameKeys = fs.map frameKeys := by
  induction fs with
  | nil => rfl
  | cons f rest ih =>
    obtain ⟨fl, fv⟩ := f
    simp only [propagateVar]
    cases hl : lookupA fv name <;>
      simp [frameKeys, updateValue_keys, ih]

/-- `mergeBackVars` keeps every frame's names exactly. -/
theorem mergeBackVars_keys (vars : List (String × VariableSlot))
    (below : List (String × List (String × VariableSlot))) :
    (mergeBackVars below vars).map frameKeys = below.map frameKeys := by
  induction vars generalizing below with
  | nil => rfl
  | cons p rest ih =>
    obtain ⟨n, s⟩ := p
    simp only [mergeBackVars]
    rw [ih, propagateVar_keys]

/-- Merge-back keeps the whole key structure of the environment. -/
theorem update_global_env_keys (e : Env) :
    envKeys e.update_global_env = envKeys e := by
  obtain ⟨frames, fns, bis⟩ := e
  cases frames with
  | nil => rfl
  | cons top rest =>
    simp only [Env.update_global_env, envKeys, Env.frames, List.map_cons,
      mergeBackVars_keys]

/-- Entering a scope pushes an empty name-domain. -/
theorem envKeys_enter (e : Env) (label : String) :
    envKeys (e.enter_scope label) = [] :: envKeys e := rfl

/-- Leaving a scope drops the innermost name-domain. -/
theorem envKeys_leave (e : Env) : envKeys e.leave_scope = (envKeys e).tail := by
  obtain ⟨frames, fns, bis⟩ := e
  cases frames <;> rfl

/-- `lookupA` misses exactly the names outside the frame's key list. -/
theorem lookupA_eq_none {α : Type} (l : List (String × α)) (x : String) :
    lookupA l x = none ↔ x ∉ l.map Prod.fst := by
  induction l with
  | nil => simp [lookupA]
  | cons p rest ih =>
    obtain ⟨n, v⟩ := p
    by_cases hn : n = x
    · subst hn
      simp [lookupA]
    · simp [lookupA, hn, ih, Ne.symm hn]

/-- An unfiltered `getFrames` lookup misses exactly those names outside
every frame's key list. -/
theorem getFrames_none_iff (fs : List (String × List (String × VariableSlot)))
    (x : String) :
    getFrames fs x none = none ↔ ∀ ks ∈ fs.map frameKeys, x ∉ ks := by
  induction fs with
  | nil => simp [getFrames]
  | cons f rest ih =>
    obtain ⟨fl, fv⟩ := f
    simp only [getFrames]
    cases hl : lookupA fv x with
    | some slot =>
      have hmem : x ∈ fv.map Prod.fst := by
        by_contra hc
        rw [← lookupA_eq_none fv x] at hc
        rw [hc] at hl
        exact Option.noConfusion hl
      simp only [List.map_cons, List.mem_cons]
      constructor
      · intro h; exact absurd h (by simp)
      · intro h
        exact absurd hmem (h (fv.map Prod.fst) (Or.inl rfl))
    | none =>
      have hnot : x ∉ fv.map Prod.fst := (lookupA_eq_none fv x).mp hl
      simp only [List.map_cons, List.mem_cons, ih]
      constructor
      · intro h ks hks
        rcases hks with hks | hks
        · rw [hks]; exact fun hc => hnot (by simpa [frameKeys] using hc)
        · exact h ks hks
      · intro h ks hks
        exact h ks (Or.inr hks)

/-- An absent name stays absent in any environment with the same key
structure. -/
theorem get_none_transport {e e' : Env} (hk : envKeys e' = envKeys e)
    {x : String} (h : e.get x none = none) : e'.get x none = none := by
  rw [Env.get, getFrames_none_iff] at h ⊢
  intro ks hks
  refine h ks ?_
  have : (e'.frames.map frameKeys) = (e.frames.map frameKeys) := hk
  rw [← this]
  exact hks

/-- Every successful evaluation step preserves the scope shape — same frame
count, identical name-domains in every non-innermost frame, and a
non-shrinking innermost name-domain — simultaneously for the five mutually
recursive interpreter functions, by induction on the fuel. -/
theorem evalShape :
    ∀ fuel : Nat,
      (∀ (ast : ASTNode) (env : Env) (v : Value) (env' : Env),
        eval fuel ast env = .ok (v, env') → ShapeStep env env') ∧
      (∀ (name : String) (fi : FunctionInfo) (argsNode : ASTNode) (env : Env)
          (v : Value) (env' : Env),
        callFunction fuel name fi argsNode env = .ok (v, env') → ShapeStep env env') ∧
      (∀ (stmts : List ASTNode) (env : Env) (v : Value) (env' : Env),
        blockNode fuel stmts env = .ok (v, env') → ShapeStep env env') ∧
      (∀ (ps : List (String × Option ValueType)) (argsL : List ASTNode) (env env' : Env),
        bindParams fuel ps argsL env = .ok env' → ShapeStep env env') ∧
      (∀ (argsL : List ASTNode) (env : Env) (vs : List Value) (env' : Env),
        evalArgs fuel argsL env = .ok (vs, env') → ShapeStep env env') := by
  intro fuel
  induction fuel with
  | zero =>
    refine ⟨?_, ?_, ?_, ?_, ?_⟩
    · intro _ _ _ _ h; exact Except.noConfusion h
    · intro _ _ _ _ _ _ h; exact Except.noConfusion h
    · intro _ _ _ _ h; exact Except.noConfusion h
    · intro _ _ _ _ h; exact Except.noConfusion h
    · intro _ _ _ _ h; exact Except.noConfusion h
  | succ n ih =>
    obtain ⟨ihEval, ihCall, ihBlock, ihBind, ihArgs⟩ := ih
    refine ⟨?_, ?_, ?_, ?_, ?_⟩
    · -- eval (n + 1)
      intro ast env v env' h
      cases ast
      case literal w =>
        simp only [eval] at h
        injection h with h2
        injection h2 with _ hb
        subst hb
        exact shapeStep_refl _
      case varNode nm vt =>
        simp only [eval] at h
        cases hg : Env.get env nm vt with
        | none => rw [hg] at h; exact Except.noConfusion h
        | some slot =>
          rw [hg] at h
          injection h with h2
          injection h2 with _ hb
          subst hb
          exact shapeStep_refl _
      case returnNode e1 =>
        simp only [eval] at h
        cases he : eval n e1 env with
        | error er => rw [he] at h; exact Except.noConfusion h
        | ok pr =>
          obtain ⟨w, envA⟩ := pr
          rw [he] at h
          injection h with h2
          injection h2 with _ hb
          subst hb
          exact ihEval e1 env w envA he
      case block stmts =>
        simp only [eval] at h
        exact ihBlock stmts env v env' h
      case assign nm valAst mt vt isNew =>
        simp only [eval] at h
        cases he : eval n valAst env with
        | error er => rw [he] at h; exact Except.noConfusion h
        | ok pr =>
          obtain ⟨w, envA⟩ := pr
          rw [he] at h
          simp only [] at h
          cases hs : Env.set envA nm w mt vt isNew with
          | error er => rw [hs] at h; exact Except.noConfusion h
          | ok envB =>
            rw [hs] at h
            injection h with h2
            injection h2 with _ hb
            subst hb
            exact shapeStep_trans (ihEval _ _ _ _ he) (set_shape hs)
      case binaryOp l op r =>
        simp only [eval] at h
        cases hl : eval n l env with
        | error er => rw [hl] at h; exact Except.noConfusion h
        | ok pl =>
          obtain ⟨lv, env1⟩ := pl
          rw [hl] at h
          simp only [] at h
          cases hr : eval n r env1 with
          | error er => rw [hr] at h; exact Except.noConfusion h
          | ok pr =>
            obtain ⟨rv, env2⟩ := pr
            rw [hr] at h
            simp only [] at h
            have hstep : ShapeStep env env2 :=
              shapeStep_trans (ihEval _ _ _ _ hl) (ihEval _ _ _ _ hr)
            split at h
            · injection h with h2; injection h2 with _ hb; subst hb; exact hstep
            · injection h with h2; injection h2 with _ hb; subst hb; exact hstep
            · injection h with h2; injection h2 with _ hb; subst hb; exact hstep
            · exact Except.noConfusion h
      case functionNode nm args body rt =>
        simp only [eval] at h
        injection h with h2
        injection h2 with _ hb
        subst hb
        exact shapeStep_of_envKeys_eq rfl
      case lambda args body =>
        simp only [eval] at h
        injection h with h2
        injection h2 with _ hb
        subst hb
        exact shapeStep_refl _
      case functionCall nm argsNode =>
        simp only [eval] at h
        cases hf : env.get_function nm with
        | some fi =>
          rw [hf] at h
          simp only [] at h
          exact ihCall _ _ _ _ _ _ h
        | none =>
          rw [hf] at h
          simp only [] at h
          cases hb2 : env.get_builtin nm with
          | some fi =>
            rw [hb2] at h
            simp only [] at h
            exact ihCall _ _ _ _ _ _ h
          | none =>
            rw [hb2] at h
            simp only [] at h
            cases hgl : env.get nm (some .lambda) with
            | none => rw [hgl] at h; exact Except.noConfusion h
            | some s0 =>
              rw [hgl] at h
              simp only [] at h
              cases hgn : env.get nm none with
              | none => rw [hgn] at h; exact Except.noConfusion h
              | some slot =>
                rw [hgn] at h
                simp only [] at h
                cases hsv : slot.value
                case lambdaValue largs lbody lenv =>
                  rw [hsv] at h
                  simp only [] at h
                  cases hep : extractParams largs with
                  | error er => rw [hep] at h; exact Except.noConfusion h
                  | ok ps =>
                    rw [hep] at h
                    simp only [] at h
                    cases argsNode
                    case functionCallArgs argsL =>
                      simp only [] at h
                      split at h
                      · exact Except.noConfusion h
                      · cases hbp : bindParams n ps argsL (env.enter_scope nm) with
                        | error er => rw [hbp] at h; exact Except.noConfusion h
                        | ok env2 =>
                          rw [hbp] at h
                          simp only [] at h
                          cases hbe : eval n lbody env2 with
                          | error er => rw [hbe] at h; exact Except.noConfusion h
                          | ok pr =>
                            obtain ⟨result, env3⟩ := pr
                            rw [hbe] at h
                            simp only [] at h
                            injection h with h2
                            injection h2 with _ hb
                            subst hb
                            have k1 : ShapeStep (env.enter_scope nm) env2 :=
                              ihBind _ _ _ _ hbp
                            have k2 : ShapeStep env2 env3 := ihEval _ _ _ _ hbe
                            apply shapeStep_of_envKeys_eq
                            rw [envKeys_leave, update_global_env_keys, k2.2.1,
                              k1.2.1, envKeys_enter, List.tail_cons]
                    all_goals exact Except.noConfusion h
                all_goals rw [hsv] at h; exact Except.noConfusion h
      all_goals exact Except.noConfusion h
    · -- callFunction (n + 1)
      intro name fi argsNode env v env' h
      simp only [callFunction] at h
      cases hep : extractParams fi.arguments with
      | error er => rw [hep] at h; exact Except.noConfusion h
      | ok ps =>
        rw [hep] at h
        simp only [] at h
        cases argsNode
        case functionCallArgs argsL =>
          simp only [] at h
          cases hbi : fi.builtin with
          | some tag =>
            rw [hbi] at h
            simp only [] at h
            cases ha : evalArgs n argsL env with
            | error er => rw [ha] at h; exact Except.noConfusion h
            | ok pr =>
              obtain ⟨argVals, envA⟩ := pr
              rw [ha] at h
              injection h with h2
              injection h2 with _ hb
              subst hb
              exact ihArgs _ _ _ _ ha
          | none =>
            rw [hbi] at h
            simp only [] at h
            split at h
            · exact Except.noConfusion h
            · cases hbp : bindParams n ps argsL (env.enter_scope name) with
              | error er => rw [hbp] at h; exact Except.noConfusion h
              | ok env2 =>
                rw [hbp] at h
                simp only [] at h
                cases hbd : fi.body with
                | none => rw [hbd] at h; exact Except.noConfusion h
                | some body =>
                  rw [hbd] at h
                  simp only [] at h
                  cases hbe : eval n body env2 with
                  | error er => rw [hbe] at h; exact Except.noConfusion h
                  | ok pr =>
                    obtain ⟨result, env3⟩ := pr
                    rw [hbe] at h
                    simp only [] at h
                    have k1 : ShapeStep (env.enter_scope name) env2 :=
                      ihBind _ _ _ _ hbp
                    have k2 : ShapeStep env2 env3 := ihEval _ _ _ _ hbe
                    have keq : envKeys (env3.update_global_env.leave_scope) = envKeys env := by
                      rw [envKeys_leave, update_global_env_keys, k2.2.1,
                        k1.2.1, envKeys_enter, List.tail_cons]
                    split at h
                    · injection h with h2
                      injection h2 with _ hb
                      subst hb
                      exact shapeStep_of_envKeys_eq keq
                    · injection h with h2
                      injection h2 with _ hb
                      subst hb
                      exact shapeStep_of_envKeys_eq keq
        all_goals exact Except.noConfusion h
    · -- blockNode (n + 1)
      intro stmts env v env' h
      cases stmts with
      | nil =>
        injection h with h2
        injection h2 with _ hb
        subst hb
        exact shapeStep_refl _
      | cons s rest =>
        simp only [blockNode] at h
        cases he : eval n s env with
        | error er => rw [he] at h; exact Except.noConfusion h
        | ok pr =>
          obtain ⟨w, envA⟩ := pr
          rw [he] at h
          simp only [] at h
          cases w
          case returnValue inner =>
            injection h with h2
            injection h2 with _ hb
            subst hb
            exact ihEval _ _ _ _ he
          all_goals exact shapeStep_trans (ihEval _ _ _ _ he) (ihBlock _ _ _ _ h)
    · -- bindParams (n + 1)
      intro ps argsL env env' h
      cases ps with
      | nil =>
        injection h with h2
        subst h2
        exact shapeStep_refl _
      | cons p ps' =>
        cases argsL with
        | nil =>
          injection h with h2
          subst h2
          exact shapeStep_refl _
        | cons a rest =>
          obtain ⟨pn, pvt⟩ := p
          simp only [bindParams] at h
          cases he : eval n a env with
          | error er => rw [he] at h; exact Except.noConfusion h
          | ok pr =>
            obtain ⟨w, envA⟩ := pr
            rw [he] at h
            simp only [] at h
            cases hs : Env.set envA pn w .immutable (pvt.getD .any) true with
            | error er => rw [hs] at h; exact Except.noConfusion h
            | ok envB =>
              rw [hs] at h
              simp only [] at h
              exact shapeStep_trans (ihEval _ _ _ _ he)
                (shapeStep_trans (set_shape hs) (ihBind _ _ _ _ h))
    · -- evalArgs (n + 1)
      intro argsL env vs env' h
      cases argsL with
      | nil =>
        injection h with h2
        injection h2 with _ hb
        subst hb
        exact shapeStep_refl _
      | cons a rest =>
        simp only [evalArgs] at h
        cases he : eval n a env with
        | error er => rw [he] at h; exact Except.noConfusion h
        | ok pr =>
          obtain ⟨w, envA⟩ := pr
          rw [he] at h
          simp only [] at h
          cases ha : evalArgs n rest envA with
          | error er => rw [ha] at h; exact Except.noConfusion h
          | ok pr2 =>
            obtain ⟨ws, envB⟩ := pr2
            rw [ha] at h
            injection h with h2
            injection h2 with _ hb
            subst hb
            exact shapeStep_trans (ihEval _ _ _ _ he) (ihArgs _ _ _ _ ha)

/-- C5: a user function's locally-declared variables never leak — for every
registered (non-builtin) function call that returns, any name unbound in
the caller's environment when the call began (in particular every name
first introduced with `is_new = true` inside the call and not already bound
in a frame below the pushed call scope) is still absent from the caller's
environment after the call. -/
theorem c5_function_locals_never_leak :
    ∀ (fuel : Nat) (name : String) (fi : FunctionInfo) (argsNode : ASTNode)
      (env : Env) (v : Value) (env' : Env) (x : String),
      env.get_function name = some fi →
      fi.builtin = none →
      eval fuel (.functionCall name argsNode) env = .ok (v, env') →
      env.get x none = none →
      env'.get x none = none := by
  intro fuel name fi argsNode env v env' x hfn hbi h hx
  cases fuel with
  | zero => exact Except.noConfusion h
  | succ n =>
    simp only [eval] at h
    rw [hfn] at h
    simp only [] at h
    cases n with
    | zero => exact Except.noConfusion h
    | succ m =>
      simp only [callFunction] at h
      cases hep : extractParams fi.arguments with
      | error er => rw [hep] at h; exact Except.noConfusion h
      | ok ps =>
        rw [hep] at h
        simp only [] at h
        cases argsNode
        case functionCallArgs argsL =>
          simp only [] at h
          rw [hbi] at h
          simp only [] at h
          split at h
          · exact Except.noConfusion h
          · cases hbp : bindParams m ps argsL (env.enter_scope name) with
            | error er => rw [hbp] at h; exact Except.noConfusion h
            | ok env2 =>
              rw [hbp] at h
              simp only [] at h
              cases hbd : fi.body with
              | none => rw [hbd] at h; exact Except.noConfusion h
              | some body =>
                rw [hbd] at h
                simp only [] at h
                cases hbe : eval m body env2 with
                | error er => rw [hbe] at h; exact Except.noConfusion h
                | ok pr =>
                  obtain ⟨result, env3⟩ := pr
                  rw [hbe] at h
                  simp only [] at h
                  have k1 : ShapeStep (env.enter_scope name) env2 :=
                    (evalShape m).2.2.2.1 _ _ _ _ hbp
                  have k2 : ShapeStep env2 env3 := (evalShape m).1 _ _ _ _ hbe
                  have keq : envKeys (env3.update_global_env.leave_scope) = envKeys env := by
                    rw [envKeys_leave, update_global_env_keys, k2.2.1, k1.2.1,
                      envKeys_enter, List.tail_cons]
                  split at h
                  · injection h with h2; injection h2 with _ hb; subst hb
                    exact get_none_transport keq hx
                  · injection h with h2; injection h2 with _ hb; subst hb
                    exact get_none_transport keq hx
        all_goals exact Except.noConfusion h

/-- C5 witness: the no-leak statement applied to a concrete call of a
function whose body declares the brand-new local `loc`. -/
theorem c5_function_locals_never_leak_witness :
    c5Env.get_function "f" = some c5Fi ∧
    c5Fi.builtin = none ∧
    eval 10 (.functionCall "f" (.functionCallArgs [])) c5Env = .ok (.number 1, c5Env) ∧
    c5Env.get "loc" none = none ∧
    c5Env.get "loc" none = none :=
  ⟨rfl, rfl, rfl, rfl,
    c5_function_locals_never_leak 10 "f" c5Fi (.functionCallArgs []) c5Env
      (.number 1) c5Env "loc" rfl rfl rfl rfl⟩

/-- C6 amended: a call of a registered user (non-builtin) function whose
argument list length differs from the declared parameter count fails with
the "does not match arguments length" arity error, for any argument
expressions; but a builtin call site skips the arity check entirely
(`src/evals/function_node.rs:56-63`) — the zero-parameter builtin `b`
called with three arguments simply receives all three. -/
theorem c6_user_arity_checked_builtin_not :
    (∀ (fuel : Nat) (name : String) (fi : FunctionInfo)
        (ps : List (String × Option ValueType)) (argsL : List ASTNode) (env : Env),
      env.get_function name = some fi →
      fi.builtin = none →
      extractParams fi.arguments = .ok ps →
      argsL.length ≠ fi.arguments.length →
      eval (fuel + 1 + 1) (.functionCall name (.functionCallArgs argsL)) env
        = .error (.mk "does not match arguments length" 0 0)) ∧
    eval 10 (.functionCall "b" (.functionCallArgs
        [.literal (.number 5), .literal (.number 6), .literal (.number 7)])) c6Env
      = .ok (.number 3, c6Env) := by
  refine ⟨?_, rfl⟩
  intro fuel name fi ps argsL env hfn hbi hep hlen
  simp only [eval]
  rw [hfn]
  simp only []
  simp only [callFunction]
  rw [hep]
  simp only []
  rw [hbi]
  simp only []
  rw [if_pos hlen]

/-- C6 witness: the arity statement applied to the one-parameter function
`g` called with no arguments. -/
theorem c6_user_arity_checked_builtin_not_witness :
    c6EnvFn.get_function "g" = some c6Fi ∧
    c6Fi.builtin = none ∧
    extractParams c6Fi.arguments = .ok [("x", none)] ∧
    ([] : List ASTNode).length ≠ c6Fi.arguments.length ∧
    eval 2 (.functionCall "g" (.functionCallArgs [])) c6EnvFn
      = .error (.mk "does not match arguments length" 0 0) :=
  ⟨rfl, rfl, rfl, by decide,
    c6_user_arity_checked_builtin_not.1 0 "g" c6Fi [("x", none)] [] c6EnvFn
      rfl rfl rfl (by decide)⟩
